import Mathlib

/-!
Shallow embedding of the Shopnosis dashboard-generation core
(`charts_model`): the cleaner, filter builder, KPI builder, recommender
and layout manager, together with proofs settling the frozen claims
about them.

Python dictionaries become structures, pandas Series become lists
(`Option` marks a missing value), machine floats become `ℚ` (every
numeric literal the code compares against — 0.5, 0.7, 0.8 — is exactly
representable in binary floating point, so the exact-rational model
agrees with the float comparisons on the inputs used here), and the
global random generator consumed by `random.randint` becomes an explicit
stream argument.
-/

/- ### Python / pandas list primitives -/

/-- Insertion step of an ascending sort, as used to model the sorted
order pandas imposes (quantile computation, groupby keys). -/
def insAsc {α : Type} [LinearOrder α] (x : α) : List α → List α
  | [] => [x]
  | y :: ys => if x ≤ y then x :: y :: ys else y :: insAsc x ys

/-- Ascending sort of a list (models the value order used by pandas
`quantile`/`median` and the ascending key order of `groupby`). -/
def sortAscL {α : Type} [LinearOrder α] (l : List α) : List α :=
  l.foldr insAsc []

/-- Insertion step of a stable descending sort by an integer key: an
element is placed before the first element whose key is not larger,
so elements inserted later (i.e. appearing earlier in the original
list) come first among equals. -/
def insertDescBy {α : Type} (k : α → ℕ) (x : α) : List α → List α
  | [] => [x]
  | y :: ys => if k y ≤ k x then x :: y :: ys else y :: insertDescBy k x ys

/-- Stable descending sort by key: models Python
`sorted(l, key=k, reverse=True)` (Timsort is stable, and `reverse=True`
preserves the original relative order of elements with equal keys). -/
def sortDescBy {α : Type} (k : α → ℕ) (l : List α) : List α :=
  l.foldr (insertDescBy k) []

/-- Distinct values of a list in order of first appearance (models the
key set of a Python dict built by insertion, and pandas uniques). -/
def firstSeen {α : Type} [DecidableEq α] (l : List α) : List α :=
  l.foldl (fun acc v => if v ∈ acc then acc else acc ++ [v]) []

/-- Helper for `pdDropDuplicates`: drop elements already in `seen`. -/
def dropDupAux {α : Type} [DecidableEq α] : List α → List α → List α
  | _, [] => []
  | seen, x :: xs =>
      if x ∈ seen then dropDupAux seen xs else x :: dropDupAux (x :: seen) xs

/-- Model of pandas `DataFrame.drop_duplicates` for a single-column
frame: keep the first occurrence of each value, in order. -/
def pdDropDuplicates {α : Type} [DecidableEq α] (l : List α) : List α :=
  dropDupAux [] l

/-- Arithmetic mean of a list of rationals (pandas `mean`; on an empty
list pandas produces NaN — the model returns the junk value 0 there,
and no theorem below depends on that case). -/
def listMean (l : List ℚ) : ℚ :=
  l.sum / l.length

/-- Model of pandas `Series.quantile(p)` with the default linear
interpolation: with the values in ascending order and
`h = p * (n - 1)`, the result interpolates between the values at
positions `⌊h⌋` and `⌊h⌋ + 1`.  On an empty series pandas produces
NaN — the model returns 0 there, and every use below is guarded away
from that case. -/
def pdQuantile (xs : List ℚ) (p : ℚ) : ℚ :=
  let s := sortAscL xs
  let h : ℚ := p * ((s.length : ℚ) - 1)
  let i : ℕ := (⌊h⌋).toNat
  match s.get? i, s.get? (i + 1) with
  | some a, some b => a + (h - (i : ℚ)) * (b - a)
  | some a, none => a
  | none, _ => 0

/-- Model of pandas `Series.median` (= quantile 0.5, linear). -/
def pdMedian (xs : List ℚ) : ℚ :=
  pdQuantile xs (1 / 2)

/- ### Python string helpers -/

/-- Does `pat` occur as a prefix of `l`? (helper for the substring test
of Python's `in` operator on strings). -/
def charsStartWith : List Char → List Char → Bool
  | [], _ => true
  | _ :: _, [] => false
  | a :: as, b :: bs => a == b && charsStartWith as bs

/-- Does `pat` occur as a contiguous substring of `l`? (Python
`pat in s`). -/
def charsContain : List Char → List Char → Bool
  | pat, [] => pat.isEmpty
  | pat, l@(_ :: rest) => charsStartWith pat l || charsContain pat rest

/-- Python `str.replace('_', ' ')` on the character list. -/
def underscoresToSpaces (s : String) : String :=
  String.mk (s.data.map (fun c => if c = '_' then ' ' else c))

/-- Helper for `pyTitle`: the flag records whether the previous
character was alphabetic. -/
def pyTitleAux : Bool → List Char → List Char
  | _, [] => []
  | prevAlpha, c :: cs =>
      if c.isAlpha then
        (if prevAlpha then c.toLower else c.toUpper) :: pyTitleAux true cs
      else
        c :: pyTitleAux false cs

/-- Model of Python `str.title()` restricted to ASCII: the first letter
of each alphabetic run is upper-cased, the rest lower-cased. -/
def pyTitle (s : String) : String :=
  String.mk (pyTitleAux false s.data)

/-- The label the filter builder derives from a column name:
`column.replace('_', ' ').title()`. -/
def columnLabel (name : String) : String :=
  pyTitle (underscoresToSpaces name)

/- ### Layout manager data model (`utils/layout.py`) -/

/-- The value of a KPI card (`value` is a number or text in the
source dictionaries). -/
inductive KpiValue : Type
  | num (q : ℚ)
  | text (s : String)
deriving DecidableEq

/-- A KPI dictionary, as produced by `KPIBuilder` and consumed by
`LayoutManager` (presentation-only `title`/`description` fields are
omitted: no claim mentions them). -/
structure Kpi : Type where
  id : String
  value : KpiValue
  format : String
  trend : Option String
  color : String
deriving DecidableEq

/-- A chart dictionary as the layout manager reads it: only its
`type` key is consulted (`chart.get("type", "unknown")`); `none`
models an absent key. -/
structure LChart : Type where
  ctype : Option String
deriving DecidableEq

/-- A recommendation dictionary as the layout manager reads it: only
its `severity` key is consulted (`x.get("severity", "low")`); `none`
models an absent key. -/
structure LRec : Type where
  severity : Option String
deriving DecidableEq

/-- The payload a layout component carries
(`data` key: a KPI, chart, or recommendation dictionary). -/
inductive CompData : Type
  | ofKpi (k : Kpi)
  | ofChart (c : LChart)
  | ofRec (r : LRec)
deriving DecidableEq

/-- A layout component: `{id, type, data, position{row,col,width,height}}`. -/
structure LComponent : Type where
  id : String
  ctype : String
  data : CompData
  row : ℕ
  col : ℕ
  width : ℕ
  height : ℕ
deriving DecidableEq

/-- A layout section: `{id, title, type, priority,
layout{columns,rows,gap}, components}`. -/
structure LSection : Type where
  id : String
  title : String
  stype : String
  priority : ℕ
  columns : ℕ
  rows : ℕ
  gap : String
  components : List LComponent
deriving DecidableEq

/-- The dashboard layout returned by `LayoutManager.organize_layout`. -/
structure Layout : Type where
  sections : List LSection
  total_components : ℕ
  layout_type : String
deriving DecidableEq

/-- Severity score used to order recommendations
(`LayoutManager._get_severity_score`): dictionary lookup in
`{high: 3, medium: 2, low: 1}` with default 1. -/
def severityScore (s : String) : ℕ :=
  if s = "high" then 3 else if s = "medium" then 2 else if s = "low" then 1 else 1

/-- The score of one recommendation as `_create_recommendation_section`
computes it: `self._get_severity_score(x.get("severity", "low"))`. -/
def recScore (r : LRec) : ℕ :=
  severityScore (r.severity.getD "low")

/-- One step of `_group_charts_by_type`: append the chart to the group
of its key, creating the group at the end when the key is new (Python
dict insertion order). -/
def addToGroups (key : String) (c : LChart) :
    List (String × List LChart) → List (String × List LChart)
  | [] => [(key, [c])]
  | (k, g) :: rest =>
      if k = key then (k, g ++ [c]) :: rest else (k, g) :: addToGroups key c rest

/-- Model of `LayoutManager._group_charts_by_type`: group charts by
their `type` key (default `"unknown"`), keys in first-seen order. -/
def groupChartsByType (charts : List LChart) : List (String × List LChart) :=
  charts.foldl (fun acc c => addToGroups (c.ctype.getD "unknown") c acc) []

/-- One step of `_group_kpis_by_type`: append the KPI to the group of
its `format` key (Python dict insertion order). -/
def addToKpiGroups (k : Kpi) :
    List (String × List Kpi) → List (String × List Kpi)
  | [] => [(k.format, [k])]
  | (f, g) :: rest =>
      if f = k.format then (f, g ++ [k]) :: rest else (f, g) :: addToKpiGroups k rest

/-- Model of `LayoutManager._group_kpis_by_type` (computed by
`_create_kpi_section` but never used by it). -/
def groupKpisByFormat (kpis : List Kpi) : List (String × List Kpi) :=
  kpis.foldl (fun acc k => addToKpiGroups k acc) []

/-- Model of `LayoutManager._create_kpi_section`: KPI cards laid out
four per row, width 3, height 1. -/
def createKpiSection (kpis : List Kpi) : LSection :=
  { id := "kpi_section"
    title := "Key Performance Indicators"
    stype := "kpi_grid"
    priority := 1
    columns := 4
    rows := max 1 (kpis.length / 4 + (if kpis.length % 4 > 0 then 1 else 0))
    gap := "16px"
    components := kpis.enum.map (fun p =>
      { id := p.2.id
        ctype := "kpi_card"
        data := CompData.ofKpi p.2
        row := p.1 / 4
        col := p.1 % 4
        width := 3
        height := 1 }) }

/-- Model of `LayoutManager._create_chart_sections`: one section per
distinct chart type, charts two per row, width 6, height 2. -/
def createChartSections (charts : List LChart) : List LSection :=
  (groupChartsByType charts).map (fun tg =>
    { id := "chart_section_" ++ tg.1
      title := pyTitle (underscoresToSpaces tg.1) ++ " Charts"
      stype := "chart_grid"
      priority := 2
      columns := 2
      rows := max 1 (tg.2.length / 2 + (if tg.2.length % 2 > 0 then 1 else 0))
      gap := "20px"
      components := tg.2.enum.map (fun p =>
        { id := "chart_" ++ toString p.1
          ctype := "chart"
          data := CompData.ofChart p.2
          row := p.1 / 2
          col := p.1 % 2
          width := 6
          height := 2 }) })

/-- Model of `LayoutManager._create_recommendation_section`:
recommendations sorted by descending severity score (Python `sorted`
with `reverse=True` is stable), one per row, width 12, height 1. -/
def createRecommendationSection (recs : List LRec) : LSection :=
  { id := "recommendation_section"
    title := "Business Insights & Recommendations"
    stype := "recommendation_list"
    priority := 3
    columns := 1
    rows := recs.length
    gap := "12px"
    components := (sortDescBy recScore recs).enum.map (fun p =>
      { id := "recommendation_" ++ toString p.1
        ctype := "recommendation_card"
        data := CompData.ofRec p.2
        row := p.1
        col := 0
        width := 12
        height := 1 }) }

/-- Model of `LayoutManager.organize_layout`: a KPI section when there
are KPIs, chart sections when there are charts, a recommendation
section when there are recommendations; `total_components` is the sum
of the three input lengths. -/
def organizeLayout (charts : List LChart) (kpis : List Kpi)
    (recs : List LRec) : Layout :=
  { sections :=
      (if kpis.isEmpty then [] else [createKpiSection kpis])
        ++ (if charts.isEmpty then [] else createChartSections charts)
        ++ (if recs.isEmpty then [] else [createRecommendationSection recs])
    total_components := charts.length + kpis.length + recs.length
    layout_type := "responsive_grid" }

/- ### Custom layouts (`LayoutManager.create_custom_layout`) -/

/-- A component of a custom layout. -/
structure CComponent (α : Type) : Type where
  id : String
  data : α
  row : ℕ
  col : ℕ
  width : ℕ
  height : ℕ
deriving DecidableEq

/-- A custom layout: the grid variant carries `columns` and `gap`, the
list variant `direction` and `gap`, the default variant neither. -/
structure CustomLayout (α : Type) : Type where
  ltype : String
  columns : Option ℕ
  direction : Option String
  gap : Option String
  components : List (CComponent α)
deriving DecidableEq

/-- Model of `LayoutManager._create_grid_layout`. -/
def createGridLayout {α : Type} (components : List α) : CustomLayout α :=
  { ltype := "grid"
    columns := some 3
    direction := none
    gap := some "16px"
    components := components.enum.map (fun p =>
      { id := "component_" ++ toString p.1
        data := p.2
        row := p.1 / 3
        col := p.1 % 3
        width := 4
        height := 2 }) }

/-- Model of `LayoutManager._create_list_layout`. -/
def createListLayout {α : Type} (components : List α) : CustomLayout α :=
  { ltype := "list"
    columns := none
    direction := some "vertical"
    gap := some "12px"
    components := components.enum.map (fun p =>
      { id := "component_" ++ toString p.1
        data := p.2
        row := p.1
        col := 0
        width := 12
        height := 1 }) }

/-- Model of `LayoutManager._create_masonry_layout`.  The height of the
`i`-th component is `random.randint(1, 3)` drawn from the (unseeded)
global random generator; `g i` stands for the `i`-th of those draws,
so the layout is a function of the generator stream, not of the
components alone. -/
def createMasonryLayout {α : Type} (g : ℕ → ℕ) (components : List α) :
    CustomLayout α :=
  { ltype := "masonry"
    columns := some 3
    direction := none
    gap := some "16px"
    components := components.enum.map (fun p =>
      { id := "component_" ++ toString p.1
        data := p.2
        row := p.1 / 3
        col := p.1 % 3
        width := 4
        height := g p.1 }) }

/-- Model of `LayoutManager._create_default_layout`. -/
def createDefaultLayout {α : Type} (components : List α) : CustomLayout α :=
  { ltype := "default"
    columns := none
    direction := none
    gap := none
    components := components.enum.map (fun p =>
      { id := "component_" ++ toString p.1
        data := p.2
        row := p.1
        col := 0
        width := 12
        height := 2 }) }

/-- Model of `LayoutManager.create_custom_layout`: dispatch on the
`layout_type` string; only the masonry branch consumes the random
stream `g`. -/
def createCustomLayout {α : Type} (g : ℕ → ℕ) (layoutType : String)
    (components : List α) : CustomLayout α :=
  if layoutType = "grid" then createGridLayout components
  else if layoutType = "list" then createListLayout components
  else if layoutType = "masonry" then createMasonryLayout g components
  else createDefaultLayout components

/- ### Data cleaner (`services/cleaner.py`) -/

/-- A pandas Series as `DataCleaner` inspects it: a column name, a
dtype flag for `pd.api.types.is_datetime64_any_dtype`, and cell values
(`none` is a missing value; present cells are modelled as strings,
the raw-upload case the cleaner is written for). -/
structure Series : Type where
  name : String
  isDatetimeDtype : Bool
  values : List (Option String)
deriving DecidableEq

/-- Can Python coerce this string to a number
(`pd.to_numeric(..., errors='coerce')` succeeds)?  Modelled for plain
signed decimal literals: an optional sign, then digits with at most
one decimal point and at least one digit. -/
def isNumericString (s : String) : Bool :=
  let l :=
    match s.data with
    | c :: r => if c = '-' || c = '+' then r else s.data
    | [] => []
  let intPart := l.takeWhile (fun c => c.isDigit)
  match l.dropWhile (fun c => c.isDigit) with
  | [] => !intPart.isEmpty
  | '.' :: frac => (!intPart.isEmpty || !frac.isEmpty) && frac.all (fun c => c.isDigit)
  | _ => false

/-- Model of `DataCleaner._is_numeric_column`: more than 80% of the
present values coerce to numbers (false when no value is present). -/
def isNumericColumn (s : Series) : Bool :=
  let present := s.values.filterMap id
  let numericCount := (present.filter isNumericString).length
  let totalCount := present.length
  if totalCount > 0 then
    decide ((numericCount : ℚ) / (totalCount : ℚ) > 0.8)
  else false

/-- Date pattern `\d{4}-\d{2}-\d{2}` as `re.match` applies it: a match
at the start of the string (anything may follow). -/
def matchYMDdash : List Char → Bool
  | a :: b :: c :: d :: e :: f :: g :: h :: i :: j :: _ =>
      a.isDigit && b.isDigit && c.isDigit && d.isDigit && e == '-'
        && f.isDigit && g.isDigit && h == '-' && i.isDigit && j.isDigit
  | _ => false

/-- Date pattern `\d{2}/\d{2}/\d{4}` (prefix match). -/
def matchMDYslash : List Char → Bool
  | a :: b :: c :: d :: e :: f :: g :: h :: i :: j :: _ =>
      a.isDigit && b.isDigit && c == '/' && d.isDigit && e.isDigit
        && f == '/' && g.isDigit && h.isDigit && i.isDigit && j.isDigit
  | _ => false

/-- Date pattern `\d{2}-\d{2}-\d{4}` (prefix match). -/
def matchMDYdash : List Char → Bool
  | a :: b :: c :: d :: e :: f :: g :: h :: i :: j :: _ =>
      a.isDigit && b.isDigit && c == '-' && d.isDigit && e.isDigit
        && f == '-' && g.isDigit && h.isDigit && i.isDigit && j.isDigit
  | _ => false

/-- Date pattern `\d{4}/\d{2}/\d{2}` (prefix match). -/
def matchYMDslash : List Char → Bool
  | a :: b :: c :: d :: e :: f :: g :: h :: i :: j :: _ =>
      a.isDigit && b.isDigit && c.isDigit && d.isDigit && e == '/'
        && f.isDigit && g.isDigit && h == '/' && i.isDigit && j.isDigit
  | _ => false

/-- Does the value match one of the four literal date patterns of
`DataCleaner._is_date_column`? -/
def matchesAnyDatePattern (s : String) : Bool :=
  matchYMDdash s.data || matchMDYslash s.data
    || matchMDYdash s.data || matchYMDslash s.data

/-- Does the lower-cased column name contain one of the date keywords
`date`, `time`, `created`, `updated`, `timestamp`? -/
def containsDateKeyword (name : String) : Bool :=
  let lower := name.data.map Char.toLower
  ["date", "time", "created", "updated", "timestamp"].any
    (fun k => charsContain k.data lower)

/-- The sample `series.dropna().head(10)` that `_is_date_column`
inspects. -/
def sampleValues (s : Series) : List String :=
  (s.values.filterMap id).take 10

/-- How many sampled values `_is_date_column` counts as dates: every
sampled value when the series dtype is datetime, otherwise the sampled
strings matching one of the four date patterns. -/
def dateMatchCount (s : Series) : ℕ :=
  (sampleValues s).countP
    (fun v => s.isDatetimeDtype || matchesAnyDatePattern v)

/-- Model of `DataCleaner._is_date_column`: true when the column name
contains a date keyword, otherwise when strictly more than 70% of the
up-to-10 sampled non-missing values count as dates (false for an empty
sample). -/
def isDateColumn (s : Series) : Bool :=
  if containsDateKeyword s.name then true
  else if (sampleValues s).length > 0 then
    decide (((dateMatchCount s : ℚ)) / ((sampleValues s).length : ℚ) > 0.7)
  else false

/-- Model of `DataCleaner._is_categorical_column`: the ratio of
distinct values to rows is below 0.5 and there are fewer than 50
distinct values (`nunique` counts distinct non-missing values, `len`
counts all rows). -/
def isCategoricalColumn (s : Series) : Bool :=
  let nuniq := (s.values.filterMap id).dedup.length
  decide ((nuniq : ℚ) / (s.values.length : ℚ) < 0.5) && decide (nuniq < 50)

/-- A column kind as `_detect_column_types` assigns it. -/
inductive ColKind : Type
  | numeric
  | date
  | categorical
  | text
deriving DecidableEq

/-- The if/elif chain of `DataCleaner._detect_column_types` for one
column: all-missing columns are text; otherwise numeric, then date,
then categorical detection; text as the fallback. -/
def seriesKind (s : Series) : ColKind :=
  if s.values.all (fun v => v.isNone) then ColKind.text
  else if isNumericColumn s then ColKind.numeric
  else if isDateColumn s then ColKind.date
  else if isCategoricalColumn s then ColKind.categorical
  else ColKind.text

/-- The mutable column-kind lists of a `DataCleaner` instance,
initialised empty by `__init__`. -/
structure CleanerState : Type where
  numeric_columns : List String
  categorical_columns : List String
  date_columns : List String
  text_columns : List String
deriving DecidableEq

/-- A freshly constructed `DataCleaner`. -/
def initCleanerState : CleanerState :=
  { numeric_columns := []
    categorical_columns := []
    date_columns := []
    text_columns := [] }

/-- Model of `DataCleaner._detect_column_types`: for each column of the
dataframe, append its name to the matching kind list of the instance
state — without clearing the lists first. -/
def detectColumnTypes (st : CleanerState) (df : List Series) : CleanerState :=
  df.foldl
    (fun st s =>
      match seriesKind s with
      | ColKind.numeric =>
          { st with numeric_columns := st.numeric_columns ++ [s.name] }
      | ColKind.date =>
          { st with date_columns := st.date_columns ++ [s.name] }
      | ColKind.categorical =>
          { st with categorical_columns := st.categorical_columns ++ [s.name] }
      | ColKind.text =>
          { st with text_columns := st.text_columns ++ [s.name] } )
    st

/-- The names of the dataframe's columns of one kind, as a single
detection pass classifies them. -/
def detectedNames (k : ColKind) (df : List Series) : List String :=
  (df.filter (fun s => seriesKind s == k)).map (fun s => s.name)

/-- The instance-state effect of one `DataCleaner.clean_data` call:
`clean_data` mutates the instance only through
`_detect_column_types` (the cleaning passes read the lists but never
write them). -/
def cleanDataState (st : CleanerState) (df : List Series) : CleanerState :=
  detectColumnTypes st df

/-- What `DataCleaner.get_column_info` reports: the accumulated kind
lists of the instance plus the dataframe's column and row counts. -/
structure ColumnInfo : Type where
  numeric_columns : List String
  categorical_columns : List String
  date_columns : List String
  text_columns : List String
  total_columns : ℕ
  total_rows : ℕ
deriving DecidableEq

/-- Model of `DataCleaner.get_column_info` (`len(df)` is the row count:
the length of the columns, 0 for a dataframe with no columns). -/
def getColumnInfo (st : CleanerState) (df : List Series) : ColumnInfo :=
  { numeric_columns := st.numeric_columns
    categorical_columns := st.categorical_columns
    date_columns := st.date_columns
    text_columns := st.text_columns
    total_columns := df.length
    total_rows := ((df.head?).map (fun s => s.values.length)).getD 0 }

/- ### Numeric cleaning pipeline (single numeric column) -/

/-- Lower IQR fence of `_clean_numeric_columns`: `Q1 - 1.5 * IQR`. -/
def fenceLo (xs : List ℚ) : ℚ :=
  pdQuantile xs (1 / 4)
    - (3 / 2) * (pdQuantile xs (3 / 4) - pdQuantile xs (1 / 4))

/-- Upper IQR fence of `_clean_numeric_columns`: `Q3 + 1.5 * IQR`. -/
def fenceHi (xs : List ℚ) : ℚ :=
  pdQuantile xs (3 / 4)
    + (3 / 2) * (pdQuantile xs (3 / 4) - pdQuantile xs (1 / 4))

/-- Model of `DataCleaner.clean_data` for a dataframe holding a single
numeric column of present numeric values (so `pd.to_numeric` is the
identity and the column is classified numeric): `_clean_numeric_columns`
replaces every value outside the IQR fences with missing,
`_handle_missing_values` fills the missing cells with the median of the
remaining values, and `drop_duplicates` keeps the first occurrence of
each row. -/
def cleanNumericValues (xs : List ℚ) : List ℚ :=
  let lo := fenceLo xs
  let hi := fenceHi xs
  let marked : List (Option ℚ) :=
    xs.map (fun x => if x < lo ∨ hi < x then none else some x)
  let med := pdMedian (marked.filterMap id)
  pdDropDuplicates (marked.map (fun o => o.getD med))

/- ### Filter builder (`services/filter_builder.py`) -/

/-- A cleaned dataframe column as `FilterBuilder` dispatches on its
dtype: numeric, datetime (dates as day ordinals), or object (strings).
All present values — the cleaner has already imputed missing cells. -/
inductive PdColumn : Type
  | numeric (vals : List ℚ)
  | datetime (vals : List ℤ)
  | object (vals : List String)
deriving DecidableEq

/-- A filter descriptor, one of the four shapes `FilterBuilder`
produces (presentation-only `description` strings are omitted; date
bounds stay day ordinals rather than `YYYY-MM-DD` strings). -/
inductive PdFilter : Type
  | range (lo hi : ℚ) (current_min current_max : Option ℚ) (step : ℚ)
      (label : String)
  | date (min_date max_date : ℤ) (current_start current_end : Option ℤ)
      (label : String)
  | categorical (options : List (String × ℕ)) (selected : List String)
      (label : String) (multi_select : Bool)
  | text (placeholder : String) (label : String) (current_value : String)
deriving DecidableEq

/-- Minimum of a nonempty numeric column (pandas `min`; 0 as junk value
for the empty column, where pandas produces NaN — every use below is
restricted to nonempty columns). -/
def colMin (xs : List ℚ) : ℚ :=
  match xs with
  | [] => 0
  | x :: rest => rest.foldl min x

/-- Maximum of a nonempty numeric column (pandas `max`, junk 0 when
empty). -/
def colMax (xs : List ℚ) : ℚ :=
  match xs with
  | [] => 0
  | x :: rest => rest.foldl max x

/-- Minimum of a nonempty datetime column. -/
def colMinD (xs : List ℤ) : ℤ :=
  match xs with
  | [] => 0
  | x :: rest => rest.foldl min x

/-- Maximum of a nonempty datetime column. -/
def colMaxD (xs : List ℤ) : ℤ :=
  match xs with
  | [] => 0
  | x :: rest => rest.foldl max x

/-- Model of `FilterBuilder._build_range_filter`: bounds are the column
extrema, the current bounds start at those extrema, the slider step is
`(max - min) / 100`, or 1 when the column has a single value. -/
def buildRangeFilter (name : String) (xs : List ℚ) : PdFilter :=
  let lo := colMin xs
  let hi := colMax xs
  PdFilter.range lo hi (some lo) (some hi)
    (if hi ≠ lo then (hi - lo) / 100 else 1)
    (columnLabel name)

/-- Model of `FilterBuilder._build_date_filter`: bounds are the date
extrema and the current window starts at the full range. -/
def buildDateFilter (name : String) (xs : List ℤ) : PdFilter :=
  PdFilter.date (colMinD xs) (colMaxD xs)
    (some (colMinD xs)) (some (colMaxD xs)) (columnLabel name)

/-- Model of pandas `value_counts`: distinct values with their counts,
sorted by descending count (stable over first-seen value order). -/
def valueCounts (vals : List String) : List (String × ℕ) :=
  sortDescBy (fun p => p.2)
    ((firstSeen vals).map (fun v => (v, vals.count v)))

/-- Model of `FilterBuilder._build_categorical_filter`: the top 20
values by frequency with their counts; nothing selected initially. -/
def buildCategoricalFilter (name : String) (vals : List String) : PdFilter :=
  PdFilter.categorical ((valueCounts vals).take 20) [] (columnLabel name) true

/-- Model of `FilterBuilder._build_text_filter`. -/
def buildTextFilter (name : String) : PdFilter :=
  PdFilter.text ("Search in " ++ name ++ "...") (columnLabel name) ""

/-- Model of `FilterBuilder._detect_filter_type`: numeric dtype gets a
range filter, datetime a date filter, object a categorical filter when
it has at most 50 distinct values and a text filter otherwise. -/
def detectFilterType (name : String) (col : PdColumn) : Option PdFilter :=
  match col with
  | PdColumn.numeric xs => some (buildRangeFilter name xs)
  | PdColumn.datetime xs => some (buildDateFilter name xs)
  | PdColumn.object vals =>
      if vals.dedup.length ≤ 50 then some (buildCategoricalFilter name vals)
      else some (buildTextFilter name)

/-- Model of `FilterBuilder.build_filters`: one filter per column that
yields one, keyed by column name in column order. -/
def buildFilters (df : List (String × PdColumn)) : List (String × PdFilter) :=
  df.filterMap (fun nc => (detectFilterType nc.1 nc.2).map (fun f => (nc.1, f)))

/-- Model of `FilterBuilder._apply_range_filter`: keep the rows at or
above `current_min` when it is present, then the rows at or below
`current_max` when it is present. -/
def applyRangeFilter (current_min current_max : Option ℚ) (xs : List ℚ) :
    List ℚ :=
  let afterMin :=
    match current_min with
    | some lo => xs.filter (fun x => lo ≤ x)
    | none => xs
  match current_max with
  | some hi => afterMin.filter (fun x => x ≤ hi)
  | none => afterMin

/- ### KPI builder (`services/kpi_builder.py`) -/

/-- A cleaned dataframe as `KPIBuilder.build_kpis` splits it by dtype:
numeric columns, object (categorical) columns, datetime columns (dates
as day ordinals).  Value lists of one dataframe are row-aligned, so the
row count is any column's length. -/
structure KDf : Type where
  numeric : List (String × List ℚ)
  categorical : List (String × List String)
  date : List (String × List ℤ)
deriving DecidableEq

/-- Model of `KPIBuilder._build_sum_kpi`. -/
def buildSumKpi (c : String) (xs : List ℚ) : Option Kpi :=
  some
    { id := "sum_" ++ c
      value := KpiValue.num xs.sum
      format := "number"
      trend := none
      color := "primary" }

/-- Model of `KPIBuilder._build_average_kpi` (the mean of an empty
column is NaN in pandas; `listMean` returns 0 there, and no claim
reads the value). -/
def buildAverageKpi (c : String) (xs : List ℚ) : Option Kpi :=
  some
    { id := "avg_" ++ c
      value := KpiValue.num (listMean xs)
      format := "number"
      trend := none
      color := "info" }

/-- Model of `KPIBuilder._build_count_kpi`: the value is `len(df)`,
the row count (= the column's length, columns being row-aligned). -/
def buildCountKpi (c : String) (xs : List ℚ) : Option Kpi :=
  some
    { id := "count_" ++ c
      value := KpiValue.num (xs.length : ℚ)
      format := "number"
      trend := none
      color := "success" }

/-- Model of `KPIBuilder._build_top_category_kpi`: the most frequent
value of a categorical column, absent when the column is empty. -/
def buildTopCategoryKpi (c : String) (vals : List String) : Option Kpi :=
  match valueCounts vals with
  | [] => none
  | top :: _ =>
      some
        { id := "top_" ++ c
          value := KpiValue.text top.1
          format := "text"
          trend := none
          color := "warning" }

/-- The key with the greatest summed value among the groups (pandas
`idxmax` on a grouped sum; ties go to the earliest group, which may
differ from pandas only in tie order — no claim reads this value). -/
def pickMaxKey (l : List (String × ℚ)) : String :=
  match l with
  | [] => ""
  | g :: rest => (rest.foldl (fun acc p => if p.2 > acc.2 then p else acc) g).1

/-- Model of `KPIBuilder._build_category_sum_kpi`: the category whose
rows have the greatest sum in the numeric column, absent when the
grouped frame is empty (no paired rows). -/
def buildCategorySumKpi (cat num : String) (catVals : List String)
    (numVals : List ℚ) : Option Kpi :=
  let pairs := catVals.zip numVals
  let groups := (firstSeen (pairs.map (fun p => p.1))).map
    (fun k => (k, ((pairs.filter (fun p => p.1 == k)).map (fun p => p.2)).sum))
  match groups with
  | [] => none
  | _ :: _ =>
      some
        { id := "sum_" ++ num ++ "_by_" ++ cat
          value := KpiValue.text (pickMaxKey groups)
          format := "text"
          trend := none
          color := "primary" }

/-- Model of the `groupby(date).sum()` daily totals used by the growth
KPI and the recommender: one `(date, total)` pair per distinct date,
dates ascending (pandas `groupby` sorts its keys). -/
def dailyTotals (pairs : List (ℤ × ℚ)) : List (ℤ × ℚ) :=
  (sortAscL (pairs.map (fun p => p.1)).dedup).map
    (fun d => (d, ((pairs.filter (fun p => p.1 == d)).map (fun p => p.2)).sum))

/-- Model of `KPIBuilder._build_growth_kpi`: with at least two distinct
dates and a nonzero first daily total, the percentage growth from the
first to the last daily total (the formatted percent string of the
source keeps only the number here). -/
def buildGrowthKpi (ncol : String) (dates : List ℤ) (nums : List ℚ) :
    Option Kpi :=
  let daily := dailyTotals (dates.zip nums)
  match daily with
  | f :: rest@(_ :: _) =>
      if f.2 ≠ 0 then
        let lastTotal := ((f :: rest).getLast?.map (fun p => p.2)).getD 0
        let rate := (lastTotal - f.2) / f.2 * 100
        some
          { id := "growth_" ++ ncol
            value := KpiValue.num rate
            format := "percentage"
            trend := some (if rate > 0 then "up" else "down")
            color := if rate > 0 then "success" else "danger" }
      else none
  | _ => none

/-- Model of `KPIBuilder._build_period_comparison_kpi`: split the rows
at the median date and compare the two half sums; absent when the
first half sums to 0. -/
def buildPeriodComparisonKpi (ncol : String) (dates : List ℤ)
    (nums : List ℚ) : Option Kpi :=
  let mid := pdMedian (dates.map (fun d => (d : ℚ)))
  let pairs := dates.zip nums
  let period1 := ((pairs.filter (fun p => ((p.1 : ℚ)) < mid)).map
    (fun p => p.2)).sum
  let period2 := ((pairs.filter (fun p => mid ≤ ((p.1 : ℚ)))).map
    (fun p => p.2)).sum
  if period1 ≠ 0 then
    let change := (period2 - period1) / period1 * 100
    some
      { id := "period_comparison_" ++ ncol
        value := KpiValue.num change
        format := "percentage"
        trend := some (if change > 0 then "up" else "down")
        color := if change > 0 then "success" else "danger" }
  else none

/-- Model of `KPIBuilder._build_ratio_kpi`: the ratio of the two
column sums, absent (rather than raising) when the denominator column
sums to 0. -/
def buildRatioKpi (c1 c2 : String) (v1 v2 : List ℚ) : Option Kpi :=
  if v2.sum ≠ 0 then
    some
      { id := "ratio_" ++ c1 ++ "_" ++ c2
        value := KpiValue.num (v1.sum / v2.sum)
        format := "ratio"
        trend := none
        color := "info" }
  else none

/-- Model of `KPIBuilder._build_percentage_kpi`: the mean percentage
contribution of each row to the column total, absent when the total
is 0. -/
def buildPercentageKpi (c : String) (xs : List ℚ) : Option Kpi :=
  if xs.sum ≠ 0 then
    some
      { id := "percentage_" ++ c
        value := KpiValue.num (listMean (xs.map (fun x => x / xs.sum * 100)))
        format := "percentage"
        trend := none
        color := "secondary" }
  else none

/-- Model of `KPIBuilder._build_basic_kpis`: sum, average and count
KPIs for every numeric column. -/
def buildBasicKpis (ncols : List (String × List ℚ)) : List Kpi :=
  ncols.flatMap (fun n =>
    (buildSumKpi n.1 n.2).toList ++ (buildAverageKpi n.1 n.2).toList
      ++ (buildCountKpi n.1 n.2).toList)

/-- Model of `KPIBuilder._build_categorical_kpis`: a top-category KPI
per categorical column and a category-sum KPI per categorical×numeric
pair. -/
def buildCategoricalKpis (ccols : List (String × List String))
    (ncols : List (String × List ℚ)) : List Kpi :=
  ccols.flatMap (fun c =>
    (buildTopCategoryKpi c.1 c.2).toList
      ++ ncols.flatMap (fun n => (buildCategorySumKpi c.1 n.1 c.2 n.2).toList))

/-- Model of `KPIBuilder._build_time_based_kpis`: growth and
period-comparison KPIs per datetime×numeric pair. -/
def buildTimeBasedKpis (dcols : List (String × List ℤ))
    (ncols : List (String × List ℚ)) : List Kpi :=
  dcols.flatMap (fun d =>
    ncols.flatMap (fun n =>
      (buildGrowthKpi n.1 d.2 n.2).toList
        ++ (buildPeriodComparisonKpi n.1 d.2 n.2).toList))

/-- Model of `KPIBuilder._build_derived_kpis`: one ratio KPI over the
first two numeric columns when there are at least two, then a
percentage KPI per numeric column. -/
def buildDerivedKpis (ncols : List (String × List ℚ)) : List Kpi :=
  (match ncols with
    | n1 :: n2 :: _ => (buildRatioKpi n1.1 n2.1 n1.2 n2.2).toList
    | _ => [])
    ++ ncols.flatMap (fun n => (buildPercentageKpi n.1 n.2).toList)

/-- Model of `KPIBuilder.build_kpis`: basic, categorical, time-based
(only when there are datetime columns) and derived KPIs, in that
order. -/
def buildKpis (df : KDf) : List Kpi :=
  buildBasicKpis df.numeric
    ++ buildCategoricalKpis df.categorical df.numeric
    ++ (if df.date.isEmpty then [] else buildTimeBasedKpis df.date df.numeric)
    ++ buildDerivedKpis df.numeric

/- ### Recommender segmentation (`services/recommender.py`) -/

/-- The dataframe as `Recommender._generate_segmentation_insights`
reads it: the names of the object-dtype columns (only their presence
matters) and the numeric columns with their values (`none` marks a
missing cell, which `dropna` removes). -/
structure SegDf : Type where
  categorical : List String
  numeric : List (String × List (Option ℚ))
deriving DecidableEq

/-- The rows complete in the first two numeric columns:
`df[numeric_cols[:2]].dropna()`. -/
def completeRows (v1 v2 : List (Option ℚ)) : List (ℚ × ℚ) :=
  (v1.zip v2).filterMap
    (fun p => p.1.bind (fun a => p.2.map (fun b => (a, b))))

/-- One reported cluster: id, size, share of the clustered rows, and
the per-feature means of its rows. -/
structure Segment : Type where
  cluster_id : ℕ
  size : ℕ
  percentage : ℚ
  avg1 : ℚ
  avg2 : ℚ
deriving DecidableEq

/-- A segmentation insight as `_perform_segmentation` assembles it
(title/description/recommendation strings omitted). -/
structure SegInsight : Type where
  itype : String
  severity : String
  segments : List Segment
  features_used : List String
deriving DecidableEq

/-- The rows assigned to cluster `i` by the labelling `labels`
(`cluster_data[clusters == i]`). -/
def clusterRows (data : List (ℚ × ℚ)) (labels : List ℕ) (i : ℕ) :
    List (ℚ × ℚ) :=
  ((data.zip labels).filter (fun p => p.2 == i)).map (fun p => p.1)

/-- Model of `Recommender._perform_segmentation`.  The standardising
scaler and the K-means clustering (`KMeans(n_clusters=3,
random_state=42).fit_predict` on the scaled first two numeric columns)
are an external library; the composite is abstracted as the labelling
function `cluster`, an arbitrary deterministic assignment of a cluster
label to each complete row.  Everything else — the `>= 2` numeric
columns check, the `len(cluster_data) > 10` guard, and the three
reported clusters with size, percentage and per-feature means — is the
source's own code. -/
def performSegmentation (cluster : List (ℚ × ℚ) → List ℕ) (df : SegDf) :
    Option SegInsight :=
  match df.numeric with
  | (c1, v1) :: (c2, v2) :: _ =>
      let data := completeRows v1 v2
      if data.length > 10 then
        let labels := cluster data
        let seg := fun (i : ℕ) =>
          let rows := clusterRows data labels i
          { cluster_id := i
            size := rows.length
            percentage := ((rows.length : ℚ) / (data.length : ℚ)) * 100
            avg1 := listMean (rows.map (fun p => p.1))
            avg2 := listMean (rows.map (fun p => p.2)) : Segment }
        some
          { itype := "segmentation"
            severity := "medium"
            segments := [seg 0, seg 1, seg 2]
            features_used := [c1, c2] }
      else none
  | _ => none

/-- Model of `Recommender._generate_segmentation_insights`: run the
segmentation only when there is at least one categorical and one
numeric column, and drop an absent result. -/
def generateSegmentationInsights (cluster : List (ℚ × ℚ) → List ℕ)
    (df : SegDf) : List SegInsight :=
  if ¬ df.categorical.isEmpty ∧ ¬ df.numeric.isEmpty then
    (performSegmentation cluster df).toList
  else []

/-- A stand-in for the library clustering in concrete evaluations:
label every row 0.  (Counterexamples below never reach the clustering
— the row-count guard rejects first — so any labelling serves.) -/
def trivialClusterer : List (ℚ × ℚ) → List ℕ :=
  fun data => data.map (fun _ => 0)

/-- A concrete dataframe with one categorical column, two numeric
columns and exactly ten complete rows. -/
def segDfTen : SegDf :=
  { categorical := ["c"]
    numeric :=
      [("x", [some 1, some 2, some 3, some 4, some 5, some 6, some 7,
        some 8, some 9, some 10]),
       ("y", [some 1, some 1, some 2, some 2, some 3, some 3, some 4,
        some 4, some 5, some 5])] }

/-- The same dataframe with an eleventh complete row. -/
def segDfEleven : SegDf :=
  { categorical := ["c"]
    numeric :=
      [("x", [some 1, some 2, some 3, some 4, some 5, some 6, some 7,
        some 8, some 9, some 10, some 11]),
       ("y", [some 1, some 1, some 2, some 2, some 3, some 3, some 4,
        some 4, some 5, some 5, some 6])] }

/-- A concrete two-numeric-column dataframe whose second column sums
to zero. -/
def kdfRatioZero : KDf :=
  { numeric := [("a", [1]), ("b", [0])]
    categorical := []
    date := [] }

/- ### Helper lemmas about the list primitives -/

theorem length_insertDescBy {α : Type} (k : α → ℕ) (x : α) (l : List α) :
    (insertDescBy k x l).length = l.length + 1 := by
  induction l with
  | nil => rfl
  | cons y ys ih =>
      by_cases h : k y ≤ k x
      · simp [insertDescBy, h]
      · simp [insertDescBy, h, ih]

theorem length_sortDescBy {α : Type} (k : α → ℕ) (l : List α) :
    (sortDescBy k l).length = l.length := by
  induction l with
  | nil => rfl
  | cons x xs ih => simp [sortDescBy, List.foldr_cons, length_insertDescBy]
                    simpa [sortDescBy] using ih

theorem addToGroups_sizes (key : String) (c : LChart)
    (acc : List (String × List LChart)) :
    ((addToGroups key c acc).map (fun g => g.2.length)).sum
      = (acc.map (fun g => g.2.length)).sum + 1 := by
  induction acc with
  | nil => simp [addToGroups]
  | cons hd tl ih =>
      obtain ⟨k, g⟩ := hd
      by_cases h : k = key
      · simp [addToGroups, h]
        omega
      · simp [addToGroups, h, ih]
        omega

theorem groupChartsByType_sizes (charts : List LChart) :
    ((groupChartsByType charts).map (fun g => g.2.length)).sum = charts.length := by
  suffices h : ∀ acc : List (String × List LChart),
      (((charts.foldl (fun acc c => addToGroups (c.ctype.getD "unknown") c acc)
          acc).map (fun g => g.2.length)).sum)
        = (acc.map (fun g => g.2.length)).sum + charts.length by
    simpa using h []
  induction charts with
  | nil => intro acc; simp
  | cons c cs ih =>
      intro acc
      simp only [List.foldl_cons]
      rw [ih (addToGroups (c.ctype.getD "unknown") c acc), addToGroups_sizes]
      simp
      omega

theorem createKpiSection_count (kpis : List Kpi) :
    (createKpiSection kpis).components.length = kpis.length := by
  simp [createKpiSection]

theorem createChartSections_count (charts : List LChart) :
    ((createChartSections charts).map (fun s => s.components.length)).sum
      = charts.length := by
  have h : ((createChartSections charts).map (fun s => s.components.length))
      = ((groupChartsByType charts).map (fun g => g.2.length)) := by
    simp [createChartSections, List.map_map, Function.comp]
  rw [h, groupChartsByType_sizes]

theorem createRecommendationSection_count (recs : List LRec) :
    (createRecommendationSection recs).components.length = recs.length := by
  simp [createRecommendationSection, length_sortDescBy]

/-- C1: for every list of charts, KPIs and recommendations, the layout
returned by `organize_layout` has `total_components` equal to
`len(charts) + len(kpis) + len(recommendations)`, and the number of
components summed across all its sections equals that same number. -/
theorem organizeLayout_total_invariant (charts : List LChart) (kpis : List Kpi)
    (recs : List LRec) :
    (organizeLayout charts kpis recs).total_components
        = charts.length + kpis.length + recs.length
    ∧ ((organizeLayout charts kpis recs).sections.map
          (fun s => s.components.length)).sum
        = charts.length + kpis.length + recs.length := by
  refine ⟨rfl, ?_⟩
  have hk : ((if kpis.isEmpty then ([] : List LSection)
        else [createKpiSection kpis]).map (fun s => s.components.length)).sum
      = kpis.length := by
    cases kpis with
    | nil => simp
    | cons k ks => simp [createKpiSection_count]
  have hc : ((if charts.isEmpty then ([] : List LSection)
        else createChartSections charts).map (fun s => s.components.length)).sum
      = charts.length := by
    cases charts with
    | nil => simp
    | cons c cs =>
        rw [if_neg (by simp)]
        exact createChartSections_count (c :: cs)
  have hr : ((if recs.isEmpty then ([] : List LSection)
        else [createRecommendationSection recs]).map
          (fun s => s.components.length)).sum
      = recs.length := by
    cases recs with
    | nil => simp
    | cons r rs => simp [createRecommendationSection_count]
  simp only [organizeLayout, List.map_append, List.sum_append]
  rw [hk, hc, hr]
  omega

/-- C3: on a structurally empty dataset (zero columns, zero rows) the
pipeline raises nothing and returns empty structures: `build_filters`
yields an empty mapping, `build_kpis` an empty list, and
`organize_layout` on three empty lists a layout with zero total
components and no sections. -/
theorem empty_dataset_empty_outputs :
    buildFilters [] = []
    ∧ buildKpis { numeric := [], categorical := [], date := [] } = []
    ∧ organizeLayout [] [] []
        = { sections := [], total_components := 0,
            layout_type := "responsive_grid" } :=
  ⟨rfl, rfl, rfl⟩

/- ### Stable descending sort over three-valued keys -/

theorem insertDescBy_cons_of_le {α : Type} (k : α → ℕ) (x : α) (l : List α)
    (h : ∀ y ∈ l, k y ≤ k x) : insertDescBy k x l = x :: l := by
  cases l with
  | nil => rfl
  | cons y ys => simp [insertDescBy, h y (by simp)]

theorem insertDescBy_append_of_lt {α : Type} (k : α → ℕ) (x : α)
    (l1 l2 : List α) (h : ∀ y ∈ l1, k x < k y) :
    insertDescBy k x (l1 ++ l2) = l1 ++ insertDescBy k x l2 := by
  induction l1 with
  | nil => rfl
  | cons y ys ih =>
      have hy : ¬ (k y ≤ k x) := not_le.mpr (h y (by simp))
      have hys := ih (fun z hz => h z (by simp [hz]))
      simp only [List.cons_append, insertDescBy, if_neg hy, List.append_eq, hys]

theorem sortDescBy_three_filters {α : Type} (k : α → ℕ) (l : List α)
    (hk : ∀ a ∈ l, 1 ≤ k a ∧ k a ≤ 3) :
    sortDescBy k l
      = l.filter (fun a => k a == 3) ++ l.filter (fun a => k a == 2)
          ++ l.filter (fun a => k a == 1) := by
  induction l with
  | nil => rfl
  | cons x xs ih =>
      have hx := hk x (by simp)
      have hxs : ∀ a ∈ xs, 1 ≤ k a ∧ k a ≤ 3 := fun a ha => hk a (by simp [ha])
      have hstep : sortDescBy k (x :: xs) = insertDescBy k x (sortDescBy k xs) := rfl
      rw [hstep, ih hxs]
      have hmem3 : ∀ a ∈ xs.filter (fun a => k a == 3), k a = 3 := by
        intro a ha
        simpa using (List.mem_filter.mp ha).2
      have hmem2 : ∀ a ∈ xs.filter (fun a => k a == 2), k a = 2 := by
        intro a ha
        simpa using (List.mem_filter.mp ha).2
      have hmem1 : ∀ a ∈ xs.filter (fun a => k a == 1), k a = 1 := by
        intro a ha
        simpa using (List.mem_filter.mp ha).2
      have hcase : k x = 1 ∨ k x = 2 ∨ k x = 3 := by omega
      rcases hcase with h1 | h2 | h3
      · rw [List.append_assoc,
          insertDescBy_append_of_lt k x _ _
            (fun y hy => by rw [hmem3 y hy]; omega),
          insertDescBy_append_of_lt k x _ _
            (fun y hy => by rw [hmem2 y hy]; omega),
          insertDescBy_cons_of_le k x _
            (fun y hy => by rw [hmem1 y hy]; omega)]
        simp [List.filter_cons, h1, List.append_assoc]
      · rw [List.append_assoc,
          insertDescBy_append_of_lt k x _ _
            (fun y hy => by rw [hmem3 y hy]; omega),
          insertDescBy_cons_of_le k x _ ?hle]
        case hle =>
          intro y hy
          rcases List.mem_append.mp hy with hy2 | hy1
          · rw [hmem2 y hy2]; omega
          · rw [hmem1 y hy1]; omega
        simp [List.filter_cons, h2, List.append_assoc]
      · rw [insertDescBy_cons_of_le k x _ ?hle3]
        case hle3 =>
          intro y hy
          rcases List.mem_append.mp hy with hy' | hy1
          · rcases List.mem_append.mp hy' with hy3 | hy2
            · rw [hmem3 y hy3]; omega
            · rw [hmem2 y hy2]; omega
          · rw [hmem1 y hy1]; omega
        simp [List.filter_cons, h3]

theorem recScore_bounds (r : LRec) : 1 ≤ recScore r ∧ recScore r ≤ 3 := by
  unfold recScore severityScore
  split_ifs <;> omega

/-- C9: recommendations with a missing or unrecognised `severity` are
ordered as severity low (score 1), and the recommendation section's
order is exactly the stable descending order by score: all score-3
recommendations in original order, then score-2, then score-1 — so
ties preserve the original relative order. -/
theorem recommendationSection_severity_order (recs : List LRec) :
    ((createRecommendationSection recs).components.map (fun c => c.data))
        = ((recs.filter (fun r => recScore r == 3))
            ++ (recs.filter (fun r => recScore r == 2))
            ++ (recs.filter (fun r => recScore r == 1))).map CompData.ofRec
    ∧ recScore { severity := none } = severityScore "low"
    ∧ (∀ s : String, s ≠ "high" → s ≠ "medium" → s ≠ "low" →
        recScore { severity := some s } = severityScore "low") := by
  refine ⟨?_, rfl, ?_⟩
  · have h1 : ((createRecommendationSection recs).components.map
          (fun c => c.data))
        = (sortDescBy recScore recs).map CompData.ofRec := by
      simp only [createRecommendationSection, List.map_map]
      have h2 : ((fun c : LComponent => c.data) ∘ (fun p : ℕ × LRec =>
          ({ id := "recommendation_" ++ toString p.1,
             ctype := "recommendation_card", data := CompData.ofRec p.2,
             row := p.1, col := 0, width := 12, height := 1 } : LComponent)))
          = (CompData.ofRec ∘ Prod.snd) := rfl
      rw [h2, ← List.map_map, List.enum_map_snd]
    rw [h1, sortDescBy_three_filters recScore recs (fun a _ => recScore_bounds a)]
  · intro s h1 h2 h3
    simp [recScore, severityScore, h1, h2, h3]

/- ### C8: determinism and the masonry random heights -/

/-- C8 (amended): every modelled pipeline operation is a pure function
of its input, and `create_custom_layout` is independent of the random
stream for every layout type except masonry — the masonry branch alone
reads `random.randint`, so only it can differ between two invocations
with the same components. -/
theorem createCustomLayout_rng_independent {α : Type} (g1 g2 : ℕ → ℕ)
    (layoutType : String) (components : List α)
    (h : layoutType ≠ "masonry") :
    createCustomLayout g1 layoutType components
      = createCustomLayout g2 layoutType components := by
  by_cases hg : layoutType = "grid"
  · simp [createCustomLayout, hg]
  · by_cases hl : layoutType = "list"
    · simp [createCustomLayout, hg, hl]
    · simp [createCustomLayout, hg, hl, h]

/-- C8 witness: a grid layout is the same under two different random
streams. -/
theorem createCustomLayout_rng_independent_witness :
    (("grid" : String) ≠ "masonry")
    ∧ createCustomLayout (fun _ => 1) "grid" ["a"]
        = createCustomLayout (fun _ => 2) "grid" ["a"] :=
  ⟨by decide,
    createCustomLayout_rng_independent (fun _ => 1) (fun _ => 2) "grid" ["a"]
      (by decide)⟩

/-- C8 counterexample: two invocations of
`create_custom_layout(..., "masonry")` on the same single-component
input differ when the random generator yields 1 in one call and 2 in
the other — component heights follow the random stream, so the
operation is not a function of its input alone. -/
theorem createCustomLayout_masonry_random_cx :
    ((createCustomLayout (fun _ => 1) "masonry" ["a"]).components.map
        (fun c => c.height)) = [1]
    ∧ ((createCustomLayout (fun _ => 2) "masonry" ["a"]).components.map
        (fun c => c.height)) = [2]
    ∧ createCustomLayout (fun _ => 1) "masonry" ["a"]
        ≠ createCustomLayout (fun _ => 2) "masonry" ["a"] := by
  refine ⟨by decide, by decide, by decide⟩

/- ### C7: default range filter is the identity -/

theorem foldl_min_le_init (a : ℚ) (l : List ℚ) : l.foldl min a ≤ a := by
  induction l generalizing a with
  | nil => exact le_refl a
  | cons x xs ih =>
      calc (x :: xs).foldl min a = xs.foldl min (min a x) := rfl
        _ ≤ min a x := ih (min a x)
        _ ≤ a := min_le_left a x

theorem foldl_min_le_mem (a : ℚ) (l : List ℚ) :
    ∀ y ∈ l, l.foldl min a ≤ y := by
  induction l generalizing a with
  | nil => intro y hy; exact absurd hy (List.not_mem_nil y)
  | cons x xs ih =>
      intro y hy
      rcases List.mem_cons.mp hy with h | h
      · calc (x :: xs).foldl min a = xs.foldl min (min a x) := rfl
          _ ≤ min a x := foldl_min_le_init (min a x) xs
          _ ≤ x := min_le_right a x
          _ = y := h.symm
      · exact ih (min a x) y h

theorem le_foldl_max_init (a : ℚ) (l : List ℚ) : a ≤ l.foldl max a := by
  induction l generalizing a with
  | nil => exact le_refl a
  | cons x xs ih =>
      calc a ≤ max a x := le_max_left a x
        _ ≤ xs.foldl max (max a x) := ih (max a x)
        _ = (x :: xs).foldl max a := rfl

theorem le_foldl_max_mem (a : ℚ) (l : List ℚ) :
    ∀ y ∈ l, y ≤ l.foldl max a := by
  induction l generalizing a with
  | nil => intro y hy; exact absurd hy (List.not_mem_nil y)
  | cons x xs ih =>
      intro y hy
      rcases List.mem_cons.mp hy with h | h
      · calc y = x := h
          _ ≤ max a x := le_max_right a x
          _ ≤ xs.foldl max (max a x) := le_foldl_max_init (max a x) xs
          _ = (x :: xs).foldl max a := rfl
      · exact ih (max a x) y h

theorem colMin_le (xs : List ℚ) (h : xs ≠ []) : ∀ y ∈ xs, colMin xs ≤ y := by
  cases xs with
  | nil => exact absurd rfl h
  | cons x rest =>
      intro y hy
      rcases List.mem_cons.mp hy with h1 | h1
      · rw [h1]; exact foldl_min_le_init x rest
      · exact foldl_min_le_mem x rest y h1

theorem le_colMax (xs : List ℚ) (h : xs ≠ []) : ∀ y ∈ xs, y ≤ colMax xs := by
  cases xs with
  | nil => exact absurd rfl h
  | cons x rest =>
      intro y hy
      rcases List.mem_cons.mp hy with h1 | h1
      · rw [h1]; exact le_foldl_max_init x rest
      · exact le_foldl_max_mem x rest y h1

/-- C7: for every nonempty numeric column, applying a range filter
whose current bounds are the column minimum and maximum — exactly the
defaults `_build_range_filter` synthesises — returns the full input
row set unchanged. -/
theorem rangeFilter_roundtrip (name : String) (xs : List ℚ) (h : xs ≠ []) :
    applyRangeFilter (some (colMin xs)) (some (colMax xs)) xs = xs
    ∧ buildRangeFilter name xs
        = PdFilter.range (colMin xs) (colMax xs)
            (some (colMin xs)) (some (colMax xs))
            (if colMax xs ≠ colMin xs then (colMax xs - colMin xs) / 100 else 1)
            (columnLabel name) := by
  refine ⟨?_, rfl⟩
  have h1 : xs.filter (fun x => decide (colMin xs ≤ x)) = xs := by
    rw [List.filter_eq_self]
    intro a ha
    exact decide_eq_true (colMin_le xs h a ha)
  have h2 : xs.filter (fun x => decide (x ≤ colMax xs)) = xs := by
    rw [List.filter_eq_self]
    intro a ha
    exact decide_eq_true (le_colMax xs h a ha)
  simp only [applyRangeFilter]
  rw [h1, h2]

/-- C7 witness: the round trip on the concrete column `[1, 2]`. -/
theorem rangeFilter_roundtrip_witness :
    (([(1 : ℚ), 2] : List ℚ) ≠ [])
    ∧ applyRangeFilter (some (colMin [1, 2])) (some (colMax [1, 2])) [1, 2]
        = [1, 2] :=
  ⟨by simp, (rangeFilter_roundtrip "amount" [1, 2] (by simp)).1⟩

/- ### C10: the cleaner accumulates column-kind lists across calls -/

theorem detectColumnTypes_append (st : CleanerState) (df : List Series) :
    detectColumnTypes st df
      = { numeric_columns :=
            st.numeric_columns ++ detectedNames ColKind.numeric df
          categorical_columns :=
            st.categorical_columns ++ detectedNames ColKind.categorical df
          date_columns := st.date_columns ++ detectedNames ColKind.date df
          text_columns := st.text_columns ++ detectedNames ColKind.text df } := by
  induction df generalizing st with
  | nil => simp [detectColumnTypes, detectedNames]
  | cons s ss ih =>
      have hstep : detectColumnTypes st (s :: ss)
          = detectColumnTypes
              (match seriesKind s with
                | ColKind.numeric =>
                    { st with numeric_columns := st.numeric_columns ++ [s.name] }
                | ColKind.date =>
                    { st with date_columns := st.date_columns ++ [s.name] }
                | ColKind.categorical =>
                    { st with categorical_columns :=
                        st.categorical_columns ++ [s.name] }
                | ColKind.text =>
                    { st with text_columns := st.text_columns ++ [s.name] })
              ss := rfl
      rw [hstep]
      cases hk : seriesKind s <;>
        simp [ih, detectedNames, List.filter_cons, hk, List.append_assoc]

/-- C10: `clean_data` only ever appends to the instance's column-kind
lists (it never resets them), so after `n` calls on the same fresh
`DataCleaner` instance every column classified into a kind appears `n`
times in that kind's list, and `get_column_info` reports exactly these
accumulated lists. -/
theorem cleaner_state_accumulates (df : List Series) (n : ℕ) (c : String) :
    (getColumnInfo ((fun st => cleanDataState st df)^[n] initCleanerState)
        df).numeric_columns.count c
        = n * (detectedNames ColKind.numeric df).count c
    ∧ (getColumnInfo ((fun st => cleanDataState st df)^[n] initCleanerState)
        df).categorical_columns.count c
        = n * (detectedNames ColKind.categorical df).count c
    ∧ (getColumnInfo ((fun st => cleanDataState st df)^[n] initCleanerState)
        df).date_columns.count c
        = n * (detectedNames ColKind.date df).count c
    ∧ (getColumnInfo ((fun st => cleanDataState st df)^[n] initCleanerState)
        df).text_columns.count c
        = n * (detectedNames ColKind.text df).count c := by
  induction n with
  | zero => simp [getColumnInfo, initCleanerState]
  | succ m ih =>
      obtain ⟨ih1, ih2, ih3, ih4⟩ := ih
      rw [Function.iterate_succ_apply'] at *
      simp only [getColumnInfo] at *
      rw [cleanDataState, detectColumnTypes_append]
      simp only [List.count_append]
      rw [ih1, ih2, ih3, ih4]
      refine ⟨by ring, by ring, by ring, by ring⟩

/- ### C2: cleaning is not idempotent -/

theorem mem_dropDupAux_not_seen {α : Type} [DecidableEq α]
    (seen l : List α) (y : α) (hy : y ∈ dropDupAux seen l) : y ∉ seen := by
  induction l generalizing seen with
  | nil => exact absurd hy (List.not_mem_nil y)
  | cons x xs ih =>
      by_cases hx : x ∈ seen
      · exact ih seen (by simpa [dropDupAux, hx] using hy)
      · rcases List.mem_cons.mp (by simpa [dropDupAux, hx] using hy) with h1 | h1
        · rw [h1]; exact hx
        · have := ih (x :: seen) h1
          exact fun hs => this (List.mem_cons_of_mem x hs)

theorem dropDupAux_nodup {α : Type} [DecidableEq α] (seen l : List α) :
    (dropDupAux seen l).Nodup := by
  induction l generalizing seen with
  | nil => simp [dropDupAux]
  | cons x xs ih =>
      by_cases hx : x ∈ seen
      · simpa [dropDupAux, hx] using ih seen
      · have hnotin : x ∉ dropDupAux (x :: seen) xs := by
          intro hmem
          exact mem_dropDupAux_not_seen (x :: seen) xs x hmem (by simp)
        simpa [dropDupAux, hx] using List.Nodup.cons hnotin (ih (x :: seen))

theorem dropDupAux_eq_self {α : Type} [DecidableEq α] (seen l : List α)
    (hnd : l.Nodup) (hdis : ∀ x ∈ l, x ∉ seen) : dropDupAux seen l = l := by
  induction l generalizing seen with
  | nil => rfl
  | cons x xs ih =>
      have hx : x ∉ seen := hdis x (by simp)
      have hxs : xs.Nodup := (List.nodup_cons.mp hnd).2
      have hxxs : x ∉ xs := (List.nodup_cons.mp hnd).1
      have hdis2 : ∀ z ∈ xs, z ∉ x :: seen := by
        intro z hz
        rw [List.mem_cons]
        rintro (h1 | h1)
        · exact hxxs (h1 ▸ hz)
        · exact hdis z (List.mem_cons_of_mem x hz) h1
      simp [dropDupAux, hx, ih (x :: seen) hxs hdis2]

theorem pdDropDuplicates_nodup {α : Type} [DecidableEq α] (l : List α) :
    (pdDropDuplicates l).Nodup :=
  dropDupAux_nodup [] l

theorem pdDropDuplicates_eq_self {α : Type} [DecidableEq α] (l : List α)
    (hnd : l.Nodup) : pdDropDuplicates l = l :=
  dropDupAux_eq_self [] l hnd (by simp)

theorem cleanNumericValues_nodup (xs : List ℚ) :
    (cleanNumericValues xs).Nodup := by
  simp only [cleanNumericValues]
  exact pdDropDuplicates_nodup _

/-- C2 (amended): cleaning is a no-op on its own output exactly when
that output contains no value outside the output's recomputed IQR
fences; `clean(clean(df)) = clean(df)` holds under that condition. -/
theorem cleanNumericValues_fixed_point (xs : List ℚ)
    (h : ∀ y ∈ cleanNumericValues xs,
        fenceLo (cleanNumericValues xs) ≤ y
          ∧ y ≤ fenceHi (cleanNumericValues xs)) :
    cleanNumericValues (cleanNumericValues xs) = cleanNumericValues xs := by
  have hnd : (cleanNumericValues xs).Nodup := cleanNumericValues_nodup xs
  set ys := cleanNumericValues xs with hys
  have hmark : ys.map
      (fun x => if x < fenceLo ys ∨ fenceHi ys < x then none else some x)
      = ys.map some := by
    apply List.map_congr_left
    intro a ha
    rw [if_neg]
    rintro (h1 | h1)
    · exact absurd (h a ha).1 (not_le.mpr h1)
    · exact absurd (h a ha).2 (not_le.mpr h1)
  calc cleanNumericValues ys
      = pdDropDuplicates ((ys.map some).map
          (fun o => o.getD (pdMedian ((ys.map some).filterMap id)))) := by
        simp only [cleanNumericValues, hmark]
    _ = pdDropDuplicates ys := by
        have hcomp : List.map
            ((fun o : Option ℚ => o.getD (pdMedian ((ys.map some).filterMap id)))
              ∘ some) ys = List.map id ys :=
          List.map_congr_left (fun a _ => rfl)
        simp only [List.map_map, hcomp, List.map_id]
    _ = ys := pdDropDuplicates_eq_self ys hnd

/-- C2 counterexample: cleaning the single numeric column
`[0, 1, 2, 100, 100]` keeps 100 (the duplicated rows widen the IQR) and
deduplicates to `[0, 1, 2, 100]`; cleaning that output recomputes the
fences on the deduplicated data, now flags 100 as an outlier, imputes
the median 1 and deduplicates to `[0, 1, 2]` — so
`clean(clean(df)) ≠ clean(df)`. -/
theorem cleanNumericValues_not_idempotent_cx :
    cleanNumericValues [0, 1, 2, 100, 100] = [0, 1, 2, 100]
    ∧ cleanNumericValues (cleanNumericValues [0, 1, 2, 100, 100]) = [0, 1, 2]
    ∧ cleanNumericValues (cleanNumericValues [0, 1, 2, 100, 100])
        ≠ cleanNumericValues [0, 1, 2, 100, 100] := by
  have h3 : Int.toNat 3 = 3 := rfl
  have h0 : Int.toNat 0 = 0 := rfl
  have h1 : Int.toNat 1 = 1 := rfl
  have h2 : Int.toNat 2 = 2 := rfl
  have h5 : cleanNumericValues [0, 1, 2, 100, 100] = [0, 1, 2, 100] := by
    have hq1 : pdQuantile [0, 1, 2, 100, 100] (1 / 4) = 1 := by
      norm_num [pdQuantile, sortAscL, insAsc]
    have hq3 : pdQuantile [0, 1, 2, 100, 100] (3 / 4) = 100 := by
      norm_num [pdQuantile, sortAscL, insAsc, h3]
    have hlo : fenceLo [0, 1, 2, 100, 100] = -(295 / 2) := by
      rw [fenceLo, hq1, hq3]; norm_num
    have hhi : fenceHi [0, 1, 2, 100, 100] = 497 / 2 := by
      rw [fenceHi, hq1, hq3]; norm_num
    norm_num [cleanNumericValues, hlo, hhi, pdDropDuplicates, dropDupAux]
  have h4 : cleanNumericValues [0, 1, 2, 100] = [0, 1, 2] := by
    have hq1 : pdQuantile [0, 1, 2, 100] (1 / 4) = 3 / 4 := by
      norm_num [pdQuantile, sortAscL, insAsc, h0]
    have hq3 : pdQuantile [0, 1, 2, 100] (3 / 4) = 53 / 2 := by
      norm_num [pdQuantile, sortAscL, insAsc, h2]
    have hlo : fenceLo [0, 1, 2, 100] = -(303 / 8) := by
      rw [fenceLo, hq1, hq3]; norm_num
    have hhi : fenceHi [0, 1, 2, 100] = 521 / 8 := by
      rw [fenceHi, hq1, hq3]; norm_num
    have hmed : pdMedian [0, 1, 2] = 1 := by
      norm_num [pdMedian, pdQuantile, sortAscL, insAsc, h1]
    norm_num [cleanNumericValues, hlo, hhi, List.filterMap_cons, hmed,
      pdDropDuplicates, dropDupAux]
  refine ⟨h5, by rw [h5, h4], ?_⟩
  rw [h5, h4]
  intro heq
  exact absurd (congrArg List.length heq) (by norm_num)

/-- C2 witness: on the already-clean column `[0, 1, 2, 3]` every value
lies within the recomputed fences, so cleaning is a no-op on it. -/
theorem cleanNumericValues_fixed_point_witness :
    (∀ y ∈ cleanNumericValues [0, 1, 2, 3],
        fenceLo (cleanNumericValues [0, 1, 2, 3]) ≤ y
          ∧ y ≤ fenceHi (cleanNumericValues [0, 1, 2, 3]))
    ∧ cleanNumericValues (cleanNumericValues [0, 1, 2, 3])
        = cleanNumericValues [0, 1, 2, 3] := by
  have h0 : Int.toNat 0 = 0 := rfl
  have h2 : Int.toNat 2 = 2 := rfl
  have hq1 : pdQuantile [0, 1, 2, 3] (1 / 4) = 3 / 4 := by
    norm_num [pdQuantile, sortAscL, insAsc, h0]
  have hq3 : pdQuantile [0, 1, 2, 3] (3 / 4) = 9 / 4 := by
    norm_num [pdQuantile, sortAscL, insAsc, h2]
  have hlo : fenceLo [0, 1, 2, 3] = -(3 / 2) := by
    rw [fenceLo, hq1, hq3]; norm_num
  have hhi : fenceHi [0, 1, 2, 3] = 9 / 2 := by
    rw [fenceHi, hq1, hq3]; norm_num
  have hev : cleanNumericValues [0, 1, 2, 3] = [0, 1, 2, 3] := by
    norm_num [cleanNumericValues, hlo, hhi, pdDropDuplicates, dropDupAux]
  have hyp : ∀ y ∈ cleanNumericValues [0, 1, 2, 3],
      fenceLo (cleanNumericValues [0, 1, 2, 3]) ≤ y
        ∧ y ≤ fenceHi (cleanNumericValues [0, 1, 2, 3]) := by
    rw [hev, hlo, hhi]
    intro y hy
    fin_cases hy <;> norm_num
  exact ⟨hyp, cleanNumericValues_fixed_point [0, 1, 2, 3] hyp⟩

/- ### C6: the 70% date threshold is strict -/

/-- C6 (amended): a keyword-free column is classified as date if and
only if the sample is nonempty and strictly more than 70% of the
sampled values count as dates (`date_count / len(sample) > 0.7`), so
exactly 70% does not suffice. -/
theorem date_threshold_strict (s : Series)
    (h : containsDateKeyword s.name = false) :
    isDateColumn s = true
      ↔ 0 < (sampleValues s).length
          ∧ 7 * (sampleValues s).length < 10 * dateMatchCount s := by
  rw [isDateColumn, h]
  simp only [Bool.false_eq_true, if_false]
  by_cases hl : (sampleValues s).length > 0
  · rw [if_pos hl, decide_eq_true_iff]
    have hlq : (0 : ℚ) < ((sampleValues s).length : ℚ) := by exact_mod_cast hl
    rw [gt_iff_lt, lt_div_iff₀ hlq]
    constructor
    · intro hx
      refine ⟨hl, ?_⟩
      have hq : (7 : ℚ) * ((sampleValues s).length : ℚ)
          < 10 * (dateMatchCount s : ℚ) := by linarith
      exact_mod_cast hq
    · rintro ⟨-, hx⟩
      have hq : (7 : ℚ) * ((sampleValues s).length : ℚ)
          < 10 * (dateMatchCount s : ℚ) := by exact_mod_cast hx
      nlinarith
  · rw [if_neg hl]
    constructor
    · intro hx
      simp at hx
    · rintro ⟨hp, -⟩
      exact absurd hp hl

/-- C6 counterexample: the column `c` (no date keyword in the name)
whose ten sampled values contain exactly seven date-patterned strings —
exactly 70% — is NOT classified as date: the source compares with a
strict `> 0.7`. -/
theorem date_threshold_cx :
    containsDateKeyword
        (Series.mk "c" false
          [some "2024-01-01", some "2024-01-02", some "2024-01-03",
            some "2024-01-04", some "2024-01-05", some "2024-01-06",
            some "2024-01-07", some "x", some "y", some "z"]).name = false
    ∧ dateMatchCount
        (Series.mk "c" false
          [some "2024-01-01", some "2024-01-02", some "2024-01-03",
            some "2024-01-04", some "2024-01-05", some "2024-01-06",
            some "2024-01-07", some "x", some "y", some "z"]) = 7
    ∧ (sampleValues
        (Series.mk "c" false
          [some "2024-01-01", some "2024-01-02", some "2024-01-03",
            some "2024-01-04", some "2024-01-05", some "2024-01-06",
            some "2024-01-07", some "x", some "y", some "z"])).length = 10
    ∧ isDateColumn
        (Series.mk "c" false
          [some "2024-01-01", some "2024-01-02", some "2024-01-03",
            some "2024-01-04", some "2024-01-05", some "2024-01-06",
            some "2024-01-07", some "x", some "y", some "z"]) = false := by
  refine ⟨by decide, by decide, by decide, ?_⟩
  rw [isDateColumn]
  rw [show containsDateKeyword
      (Series.mk "c" false
        [some "2024-01-01", some "2024-01-02", some "2024-01-03",
          some "2024-01-04", some "2024-01-05", some "2024-01-06",
          some "2024-01-07", some "x", some "y", some "z"]).name = false
    from by decide]
  rw [show dateMatchCount
      (Series.mk "c" false
        [some "2024-01-01", some "2024-01-02", some "2024-01-03",
          some "2024-01-04", some "2024-01-05", some "2024-01-06",
          some "2024-01-07", some "x", some "y", some "z"]) = 7
    from by decide]
  rw [show (sampleValues
      (Series.mk "c" false
        [some "2024-01-01", some "2024-01-02", some "2024-01-03",
          some "2024-01-04", some "2024-01-05", some "2024-01-06",
          some "2024-01-07", some "x", some "y", some "z"])).length = 10
    from by decide]
  norm_num

/-- C6 witness: the strict-threshold characterisation applied to a
concrete keyword-free column with eight date-patterned values among
ten. -/
theorem date_threshold_strict_witness :
    containsDateKeyword
        (Series.mk "v" false
          [some "2024-01-01", some "2024-01-02", some "2024-01-03",
            some "2024-01-04", some "2024-01-05", some "2024-01-06",
            some "2024-01-07", some "2024-01-08", some "y", some "z"]).name
      = false
    ∧ (isDateColumn
        (Series.mk "v" false
          [some "2024-01-01", some "2024-01-02", some "2024-01-03",
            some "2024-01-04", some "2024-01-05", some "2024-01-06",
            some "2024-01-07", some "2024-01-08", some "y", some "z"]) = true
        ↔ 0 < (sampleValues
            (Series.mk "v" false
              [some "2024-01-01", some "2024-01-02", some "2024-01-03",
                some "2024-01-04", some "2024-01-05", some "2024-01-06",
                some "2024-01-07", some "2024-01-08", some "y", some "z"])).length
          ∧ 7 * (sampleValues
              (Series.mk "v" false
                [some "2024-01-01", some "2024-01-02", some "2024-01-03",
                  some "2024-01-04", some "2024-01-05", some "2024-01-06",
                  some "2024-01-07", some "2024-01-08", some "y",
                  some "z"])).length
            < 10 * dateMatchCount
                (Series.mk "v" false
                  [some "2024-01-01", some "2024-01-02", some "2024-01-03",
                    some "2024-01-04", some "2024-01-05", some "2024-01-06",
                    some "2024-01-07", some "2024-01-08", some "y",
                    some "z"])) :=
  ⟨by decide, date_threshold_strict _ (by decide)⟩

/- ### C5: the segmentation guard requires strictly more than 10 rows -/

/-- C5 (amended): with at least one categorical and two numeric
columns, the recommender emits a segmentation insight exactly when the
rows complete in the first two numeric columns number strictly more
than 10 (not 10 or more); the emitted insight reports exactly 3
clusters with per-cluster size, percentage and per-feature means, with
severity fixed at medium — for any clustering assignment standing in
for the library K-means. -/
theorem segmentation_guard (cluster : List (ℚ × ℚ) → List ℕ)
    (df : SegDf) (c1 c2 : String) (v1 v2 : List (Option ℚ))
    (rest : List (String × List (Option ℚ)))
    (hcat : df.categorical ≠ [])
    (hnum : df.numeric = (c1, v1) :: (c2, v2) :: rest) :
    ((completeRows v1 v2).length ≤ 10 →
        generateSegmentationInsights cluster df = [])
    ∧ ((completeRows v1 v2).length > 10 →
        ∃ ins : SegInsight,
          generateSegmentationInsights cluster df = [ins]
          ∧ ins.itype = "segmentation"
          ∧ ins.severity = "medium"
          ∧ ins.segments.length = 3
          ∧ ins.features_used = [c1, c2]
          ∧ ∀ seg ∈ ins.segments,
              seg.size = (clusterRows (completeRows v1 v2)
                  (cluster (completeRows v1 v2)) seg.cluster_id).length
              ∧ seg.percentage
                  = ((seg.size : ℚ) / ((completeRows v1 v2).length : ℚ)) * 100
              ∧ seg.avg1 = listMean ((clusterRows (completeRows v1 v2)
                  (cluster (completeRows v1 v2)) seg.cluster_id).map
                    (fun p => p.1))
              ∧ seg.avg2 = listMean ((clusterRows (completeRows v1 v2)
                  (cluster (completeRows v1 v2)) seg.cluster_id).map
                    (fun p => p.2))) := by
  have hni : ¬ df.numeric.isEmpty := by rw [hnum]; simp
  have hci : ¬ df.categorical.isEmpty := by
    simpa [List.isEmpty_iff] using hcat
  have hgen : generateSegmentationInsights cluster df
      = (performSegmentation cluster df).toList := by
    rw [generateSegmentationInsights, if_pos ⟨hci, hni⟩]
  constructor
  · intro hle
    rw [hgen]
    rw [show performSegmentation cluster df = none from ?_]
    · rfl
    · simp only [performSegmentation, hnum]
      rw [if_neg (by omega)]
  · intro hgt
    rw [hgen]
    rw [show performSegmentation cluster df = some
        { itype := "segmentation"
          severity := "medium"
          segments := [0, 1, 2].map (fun i =>
            { cluster_id := i
              size := (clusterRows (completeRows v1 v2)
                  (cluster (completeRows v1 v2)) i).length
              percentage := (((clusterRows (completeRows v1 v2)
                  (cluster (completeRows v1 v2)) i).length : ℚ)
                    / ((completeRows v1 v2).length : ℚ)) * 100
              avg1 := listMean ((clusterRows (completeRows v1 v2)
                  (cluster (completeRows v1 v2)) i).map (fun p => p.1))
              avg2 := listMean ((clusterRows (completeRows v1 v2)
                  (cluster (completeRows v1 v2)) i).map (fun p => p.2)) })
          features_used := [c1, c2] } from ?_]
    · refine ⟨_, rfl, rfl, rfl, by simp, rfl, ?_⟩
      intro seg hseg
      simp only [List.map_cons, List.map_nil, List.mem_cons,
        List.not_mem_nil, or_false] at hseg
      rcases hseg with h | h | h <;> rw [h] <;> exact ⟨rfl, rfl, rfl, rfl⟩
    · simp only [performSegmentation, hnum]
      rw [if_pos hgt]
      rfl

/-- C5 counterexample: a dataset with one categorical column, two
numeric columns and exactly ten complete rows yields NO segmentation
insight: the source guard is the strict `len(cluster_data) > 10`, so
ten complete rows are rejected (the clustering is never reached, so
the result is empty for any stand-in clusterer). -/
theorem segmentation_ten_rows_cx :
    (completeRows
        [some 1, some 2, some 3, some 4, some 5, some 6, some 7, some 8,
          some 9, some 10]
        [some 1, some 1, some 2, some 2, some 3, some 3, some 4, some 4,
          some 5, some 5]).length = 10
    ∧ segDfTen.categorical ≠ []
    ∧ segDfTen.numeric
        = [("x", [some 1, some 2, some 3, some 4, some 5, some 6, some 7,
            some 8, some 9, some 10]),
           ("y", [some 1, some 1, some 2, some 2, some 3, some 3, some 4,
            some 4, some 5, some 5])]
    ∧ generateSegmentationInsights trivialClusterer segDfTen = [] :=
  ⟨rfl, by decide, rfl, rfl⟩

/-- C5 witness: with an eleventh complete row the guard passes and the
segmentation insight is emitted with three clusters and medium
severity. -/
theorem segmentation_guard_witness :
    (completeRows
        [some 1, some 2, some 3, some 4, some 5, some 6, some 7, some 8,
          some 9, some 10, some 11]
        [some 1, some 1, some 2, some 2, some 3, some 3, some 4, some 4,
          some 5, some 5, some 6]).length > 10
    ∧ (∃ ins : SegInsight,
        generateSegmentationInsights trivialClusterer segDfEleven = [ins]
        ∧ ins.itype = "segmentation"
        ∧ ins.severity = "medium"
        ∧ ins.segments.length = 3
        ∧ ins.features_used = ["x", "y"]
        ∧ ∀ seg ∈ ins.segments,
            seg.size = (clusterRows (completeRows
                [some 1, some 2, some 3, some 4, some 5, some 6, some 7,
                  some 8, some 9, some 10, some 11]
                [some 1, some 1, some 2, some 2, some 3, some 3, some 4,
                  some 4, some 5, some 5, some 6])
                (trivialClusterer (completeRows
                  [some 1, some 2, some 3, some 4, some 5, some 6, some 7,
                    some 8, some 9, some 10, some 11]
                  [some 1, some 1, some 2, some 2, some 3, some 3, some 4,
                    some 4, some 5, some 5, some 6])) seg.cluster_id).length
            ∧ seg.percentage
                = ((seg.size : ℚ) / (((completeRows
                    [some 1, some 2, some 3, some 4, some 5, some 6, some 7,
                      some 8, some 9, some 10, some 11]
                    [some 1, some 1, some 2, some 2, some 3, some 3, some 4,
                      some 4, some 5, some 5, some 6]).length : ℚ))) * 100
            ∧ seg.avg1 = listMean ((clusterRows (completeRows
                [some 1, some 2, some 3, some 4, some 5, some 6, some 7,
                  some 8, some 9, some 10, some 11]
                [some 1, some 1, some 2, some 2, some 3, some 3, some 4,
                  some 4, some 5, some 5, some 6])
                (trivialClusterer (completeRows
                  [some 1, some 2, some 3, some 4, some 5, some 6, some 7,
                    some 8, some 9, some 10, some 11]
                  [some 1, some 1, some 2, some 2, some 3, some 3, some 4,
                    some 4, some 5, some 5, some 6])) seg.cluster_id).map
                  (fun p => p.1))
            ∧ seg.avg2 = listMean ((clusterRows (completeRows
                [some 1, some 2, some 3, some 4, some 5, some 6, some 7,
                  some 8, some 9, some 10, some 11]
                [some 1, some 1, some 2, some 2, some 3, some 3, some 4,
                  some 4, some 5, some 5, some 6])
                (trivialClusterer (completeRows
                  [some 1, some 2, some 3, some 4, some 5, some 6, some 7,
                    some 8, some 9, some 10, some 11]
                  [some 1, some 1, some 2, some 2, some 3, some 3, some 4,
                    some 4, some 5, some 5, some 6])) seg.cluster_id).map
                  (fun p => p.2))) :=
  ⟨by decide,
    (segmentation_guard trivialClusterer segDfEleven "x" "y"
      [some 1, some 2, some 3, some 4, some 5, some 6, some 7, some 8,
        some 9, some 10, some 11]
      [some 1, some 1, some 2, some 2, some 3, some 3, some 4, some 4,
        some 5, some 5, some 6]
      [] (by decide) rfl).2 (by decide)⟩

/- ### C4: the ratio KPI is guarded against a zero denominator -/

theorem string_ne_of_head (p q s t : String) (c d : Char)
    {cp dq : List Char} (hp : p.data = c :: cp) (hq : q.data = d :: dq)
    (hcd : c ≠ d) : p ++ s ≠ q ++ t := by
  intro h
  have h2 := congrArg String.data h
  rw [String.data_append, String.data_append, hp, hq] at h2
  simp only [List.cons_append, List.cons.injEq] at h2
  exact hcd h2.1

theorem mem_buildBasicKpis (ncols : List (String × List ℚ)) (kp : Kpi)
    (h : kp ∈ buildBasicKpis ncols) :
    ∃ c : String,
      kp.id = "sum_" ++ c ∨ kp.id = "avg_" ++ c ∨ kp.id = "count_" ++ c := by
  simp only [buildBasicKpis, List.mem_flatMap] at h
  obtain ⟨n, hn, hk⟩ := h
  simp only [buildSumKpi, buildAverageKpi, buildCountKpi, Option.toList_some,
    List.mem_append, List.mem_singleton] at hk
  rcases hk with (h1 | h1) | h1
  · exact ⟨n.1, Or.inl (by rw [h1])⟩
  · exact ⟨n.1, Or.inr (Or.inl (by rw [h1]))⟩
  · exact ⟨n.1, Or.inr (Or.inr (by rw [h1]))⟩

theorem mem_buildCategoricalKpis (ccols : List (String × List String))
    (ncols : List (String × List ℚ)) (kp : Kpi)
    (h : kp ∈ buildCategoricalKpis ccols ncols) :
    (∃ c : String, kp.id = "top_" ++ c)
    ∨ (∃ c : String, kp.id = "sum_" ++ c) := by
  simp only [buildCategoricalKpis, List.mem_flatMap, List.mem_append] at h
  obtain ⟨c, hc, hk⟩ := h
  rcases hk with h1 | h1
  · left
    cases hvc : valueCounts c.2 with
    | nil => simp [buildTopCategoryKpi, hvc] at h1
    | cons top rest =>
        simp only [buildTopCategoryKpi, hvc, Option.toList_some,
          List.mem_singleton] at h1
        exact ⟨c.1, by rw [h1]⟩
  · right
    obtain ⟨n, hn, h2⟩ := h1
    rcases hgr : (firstSeen ((c.2.zip n.2).map (fun p => p.1))).map
        (fun k => (k, (((c.2.zip n.2).filter (fun p => p.1 == k)).map
          (fun p => p.2)).sum)) with _ | ⟨g, gs⟩
    · simp [buildCategorySumKpi, hgr] at h2
    · simp only [buildCategorySumKpi, hgr, Option.toList_some,
        List.mem_singleton] at h2
      refine ⟨n.1 ++ ("_by_" ++ c.1), ?_⟩
      rw [h2]
      simp only [String.append_assoc]

theorem mem_buildTimeBasedKpis (dcols : List (String × List ℤ))
    (ncols : List (String × List ℚ)) (kp : Kpi)
    (h : kp ∈ buildTimeBasedKpis dcols ncols) :
    (∃ c : String, kp.id = "growth_" ++ c)
    ∨ (∃ c : String, kp.id = "period_comparison_" ++ c) := by
  simp only [buildTimeBasedKpis, List.mem_flatMap, List.mem_append] at h
  obtain ⟨d, hd, n, hn, hk⟩ := h
  rcases hk with h1 | h1
  · left
    rw [buildGrowthKpi] at h1
    split at h1
    · split at h1
      · simp only [Option.toList_some, List.mem_singleton] at h1
        exact ⟨n.1, by rw [h1]⟩
      · simp at h1
    · simp at h1
  · right
    rw [buildPeriodComparisonKpi] at h1
    split at h1
    · simp only [Option.toList_some, List.mem_singleton] at h1
      exact ⟨n.1, by rw [h1]⟩
    · simp at h1

theorem mem_buildDerivedKpis (ncols : List (String × List ℚ)) (kp : Kpi)
    (h : kp ∈ buildDerivedKpis ncols) :
    (∃ c : String, kp.id = "percentage_" ++ c)
    ∨ (∃ a b : String, ∃ va vb : List ℚ, ∃ r2 : List (String × List ℚ),
        ncols = (a, va) :: (b, vb) :: r2 ∧ vb.sum ≠ 0
          ∧ kp.id = "ratio_" ++ a ++ "_" ++ b) := by
  have hperc : ∀ nc : List (String × List ℚ),
      kp ∈ nc.flatMap (fun n => (buildPercentageKpi n.1 n.2).toList) →
      ∃ c : String, kp.id = "percentage_" ++ c := by
    intro nc hmem
    simp only [List.mem_flatMap] at hmem
    obtain ⟨n, hn, h2⟩ := hmem
    rw [buildPercentageKpi] at h2
    split at h2
    · simp only [Option.toList_some, List.mem_singleton] at h2
      exact ⟨n.1, by rw [h2]⟩
    · simp at h2
  cases ncols with
  | nil => simp [buildDerivedKpis] at h
  | cons n1 rest1 =>
      cases rest1 with
      | nil =>
          simp only [buildDerivedKpis, List.nil_append] at h
          exact Or.inl (hperc _ h)
      | cons n2 rest2 =>
          simp only [buildDerivedKpis, List.mem_append] at h
          rcases h with h1 | h1
          · right
            rw [buildRatioKpi] at h1
            split at h1
            · simp only [Option.toList_some, List.mem_singleton] at h1
              exact ⟨n1.1, n2.1, n1.2, n2.2, rest2, rfl, by assumption,
                by rw [h1]⟩
            · simp at h1
          · exact Or.inl (hperc _ h1)

/-- C4: whenever the second numeric column sums to exactly 0,
`build_kpis` emits no KPI whose id is `ratio_<col1>_<col2>` — the
division is guarded by dropping the KPI rather than raising (every
builder in the model is total, so nothing raises). -/
theorem ratio_kpi_zero_guard (df : KDf) (c1 c2 : String) (v1 v2 : List ℚ)
    (rest : List (String × List ℚ))
    (hcols : df.numeric = (c1, v1) :: (c2, v2) :: rest)
    (hzero : v2.sum = 0) :
    ∀ kp ∈ buildKpis df, kp.id ≠ "ratio_" ++ c1 ++ "_" ++ c2 := by
  intro kp hmem hid
  rw [String.append_assoc, String.append_assoc] at hid
  simp only [buildKpis, List.mem_append] at hmem
  rcases hmem with ((hb | hc) | ht) | hd
  · obtain ⟨c, h1 | h1 | h1⟩ := mem_buildBasicKpis df.numeric kp hb
    · exact string_ne_of_head "sum_" "ratio_" c _ 's' 'r' rfl rfl
        (by decide) (h1.symm.trans hid)
    · exact string_ne_of_head "avg_" "ratio_" c _ 'a' 'r' rfl rfl
        (by decide) (h1.symm.trans hid)
    · exact string_ne_of_head "count_" "ratio_" c _ 'c' 'r' rfl rfl
        (by decide) (h1.symm.trans hid)
  · rcases mem_buildCategoricalKpis df.categorical df.numeric kp hc with
      ⟨c, h1⟩ | ⟨c, h1⟩
    · exact string_ne_of_head "top_" "ratio_" c _ 't' 'r' rfl rfl
        (by decide) (h1.symm.trans hid)
    · exact string_ne_of_head "sum_" "ratio_" c _ 's' 'r' rfl rfl
        (by decide) (h1.symm.trans hid)
  · by_cases hd0 : df.date.isEmpty
    · rw [if_pos hd0] at ht
      simp at ht
    · rw [if_neg hd0] at ht
      rcases mem_buildTimeBasedKpis df.date df.numeric kp ht with
        ⟨c, h1⟩ | ⟨c, h1⟩
      · exact string_ne_of_head "growth_" "ratio_" c _ 'g' 'r' rfl rfl
          (by decide) (h1.symm.trans hid)
      · exact string_ne_of_head "period_comparison_" "ratio_" c _ 'p' 'r'
          rfl rfl (by decide) (h1.symm.trans hid)
  · rcases mem_buildDerivedKpis df.numeric kp hd with
      ⟨c, h1⟩ | ⟨a, b, va, vb, r2, hnc, hnz, hre⟩
    · exact string_ne_of_head "percentage_" "ratio_" c _ 'p' 'r' rfl rfl
        (by decide) (h1.symm.trans hid)
    · rw [hcols] at hnc
      simp only [List.cons.injEq, Prod.mk.injEq] at hnc
      exact hnz (by rw [← hnc.2.1.2]; exact hzero)

/-- C4 witness: on a concrete dataframe whose second numeric column is
`[0]`, no emitted KPI has the id `ratio_a_b`. -/
theorem ratio_kpi_zero_guard_witness :
    (([(0 : ℚ)] : List ℚ).sum = 0)
    ∧ ("ratio_" ++ "a" ++ "_" ++ "b")
        ∉ (buildKpis kdfRatioZero).map (fun kp => kp.id) := by
  refine ⟨by simp, ?_⟩
  intro hmem
  obtain ⟨kp, hk, hid⟩ := List.mem_map.mp hmem
  exact ratio_kpi_zero_guard kdfRatioZero "a" "b" [1] [0] [] rfl (by simp)
    kp hk hid
